import Mathlib

/-!
Verification of the LLM orchestration core of the hackiaton-server repository
(`src/services/llm.service.ts`) against its natural-language specification.

The TypeScript service is shallowly embedded: network effects (provider SDK
calls) are represented by an explicit behaviour oracle passed to each
function, JavaScript exceptions are represented by `Except`, and the runtime
values the code manipulates are represented by plain Lean data.
-/

namespace LLM

/-- The two supported providers (`'openai' | 'gemini'` in the source). -/
inductive Provider
  | openai
  | gemini
deriving DecidableEq, Repr

/-- The other provider, used to phrase fallback properties. -/
def Provider.other : Provider → Provider
  | .openai => .gemini
  | .gemini => .openai

/-- A chat message (`interface ChatMessage` in `llm.service.ts`). -/
structure ChatMessage where
  role : String
  content : String
deriving DecidableEq, Repr

/-- Overall health (`status: 'healthy' | 'unhealthy'`). -/
inductive HStatus
  | healthy
  | unhealthy
deriving DecidableEq, Repr

/-- Per-provider health entry (`providers.openai` / `providers.gemini`). -/
structure ProviderHealth where
  available : Bool
  model : String
  lastCheck : Nat
deriving DecidableEq, Repr

/-- `interface HealthStatus` of `llm.service.ts`. -/
structure HealthStatus where
  status : HStatus
  preferredProvider : Provider
  openai : ProviderHealth
  gemini : ProviderHealth
deriving DecidableEq, Repr

/-- The service's constructor-time state: the preferred provider and the two
model names come from the environment; `openaiInit` / `geminiInit` record
whether the corresponding client object is non-null (an API key was set and
the SDK constructor succeeded).  `openaiPingOk` / `geminiPingOk` are the
oracle for the two health-probe network calls (`openai.models.list()` and
`gemini.generateContent('test')`): `true` means the probe resolves. -/
structure ServiceState where
  preferredProvider : Provider
  openaiModel : String
  geminiModel : String
  openaiInit : Bool
  geminiInit : Bool
  openaiPingOk : Bool
  geminiPingOk : Bool
deriving DecidableEq, Repr

/-- `healthCheck()` of `llm.service.ts` (lines 89-135): start from an
all-unavailable record, mark each provider available when its client is
initialized and its probe call resolves, then mark the overall status
healthy when either provider is available. -/
def healthCheck (st : ServiceState) (now : Nat) : HealthStatus :=
  let h0 : HealthStatus :=
    { status := .unhealthy
      preferredProvider := st.preferredProvider
      openai := { available := false, model := st.openaiModel, lastCheck := now }
      gemini := { available := false, model := st.geminiModel, lastCheck := now } }
  let h1 :=
    if st.openaiInit && st.openaiPingOk then
      { h0 with openai := { h0.openai with available := true } }
    else h0
  let h2 :=
    if st.geminiInit && st.geminiPingOk then
      { h1 with gemini := { h1.gemini with available := true } }
    else h1
  if h2.openai.available || h2.gemini.available then
    { h2 with status := .healthy }
  else h2

/-- An exception raised by a provider SDK call (auth failure, quota,
network error, ...); the orchestration code never inspects it, so its
payload is an opaque message. -/
structure ProviderError where
  msg : String
deriving DecidableEq, Repr

/-- Errors that can escape `callLLM` (all are `Error` values in the
source, distinguished here by provenance):
`unavailable` is `new Error('No AI providers are available')`,
`notInitialized p` is the `'... not initialized'` guard of an invoker, and
`provider p e` is an exception `e` raised by provider `p`'s SDK call. -/
inductive DispatchError
  | unavailable
  | notInitialized (p : Provider)
  | provider (p : Provider) (e : ProviderError)
deriving DecidableEq, Repr

/-- JavaScript's `x || dflt` on a possibly-absent string (`undefined` and
`''` are falsy). -/
def jsOrString (x : Option String) (dflt : String) : String :=
  match x with
  | none => dflt
  | some s => if s = "" then dflt else s

/-- The message array `callOpenAI` sends: the system prompt followed by the
conversation turns, each as a (role, content) pair. -/
def openaiRequestMessages (systemPrompt : String) (messages : List ChatMessage) :
    List (String × String) :=
  ("system", systemPrompt) :: messages.map (fun m => (m.role, m.content))

/-- The single concatenated prompt `callGemini` sends (line 163): the system
prompt plus the content of the LAST message only; an empty message list
contributes the empty string. -/
def geminiFullPrompt (systemPrompt : String) (messages : List ChatMessage) : String :=
  systemPrompt ++ "\n\nUser: " ++
    (match messages.getLast? with
     | some m => m.content
     | none => "")

/-- Behaviour oracle for the two completion endpoints.  Each maps the
request the invoker actually builds to either a raised `ProviderError` or a
resolved (possibly absent/empty) text completion. -/
structure ProviderBehavior where
  openaiResult : List (String × String) → Except ProviderError (Option String)
  geminiResult : String → Except ProviderError (Option String)

/-- `callOpenAI` (lines 137-153): guard on the client being initialized,
send the chat-completion request, and default an absent/empty completion to
`'No response generated'`. -/
def callOpenAI (st : ServiceState) (beh : ProviderBehavior)
    (messages : List ChatMessage) (systemPrompt : String) :
    Except DispatchError String :=
  if st.openaiInit = false then
    .error (.notInitialized .openai)
  else
    match beh.openaiResult (openaiRequestMessages systemPrompt messages) with
    | .error e => .error (.provider .openai e)
    | .ok content => .ok (jsOrString content "No response generated")

/-- `callGemini` (lines 155-169): guard on the client being initialized,
send the concatenated prompt, and default an absent/empty completion to
`'No response generated'`. -/
def callGemini (st : ServiceState) (beh : ProviderBehavior)
    (messages : List ChatMessage) (systemPrompt : String) :
    Except DispatchError String :=
  if st.geminiInit = false then
    .error (.notInitialized .gemini)
  else
    match beh.geminiResult (geminiFullPrompt systemPrompt messages) with
    | .error e => .error (.provider .gemini e)
    | .ok content => .ok (jsOrString content "No response generated")

/-- Result of one invoker call by the dispatcher. -/
def invokeProvider (p : Provider) (st : ServiceState) (beh : ProviderBehavior)
    (messages : List ChatMessage) (systemPrompt : String) :
    Except DispatchError String :=
  match p with
  | .openai => callOpenAI st beh messages systemPrompt
  | .gemini => callGemini st beh messages systemPrompt

/-- `callLLM` (lines 171-209), the dispatcher.  The second component of the
result is instrumentation, not a source value: it records, in order, the
providers whose invoker (`callOpenAI` / `callGemini`) was called, so that
the temporal fallback-order properties can be stated. -/
def callLLM (st : ServiceState) (beh : ProviderBehavior)
    (messages : List ChatMessage) (systemPrompt : String) (now : Nat) :
    Except DispatchError String × List Provider :=
  let health := healthCheck st now
  if health.status = .unhealthy then
    (.error .unavailable, [])
  else if st.preferredProvider = .openai && health.openai.available then
    match callOpenAI st beh messages systemPrompt with
    | .ok r => (.ok r, [.openai])
    | .error e =>
      if health.gemini.available then
        (callGemini st beh messages systemPrompt, [.openai, .gemini])
      else
        (.error e, [.openai])
  else if st.preferredProvider = .gemini && health.gemini.available then
    match callGemini st beh messages systemPrompt with
    | .ok r => (.ok r, [.gemini])
    | .error e =>
      if health.openai.available then
        (callOpenAI st beh messages systemPrompt, [.gemini, .openai])
      else
        (.error e, [.gemini])
  else if health.openai.available then
    (callOpenAI st beh messages systemPrompt, [.openai])
  else if health.gemini.available then
    (callGemini st beh messages systemPrompt, [.gemini])
  else
    (.error .unavailable, [])

/-- Availability of a provider as `healthCheck` reports it. -/
def availableIn (st : ServiceState) : Provider → Bool
  | .openai => st.openaiInit && st.openaiPingOk
  | .gemini => st.geminiInit && st.geminiPingOk

/-- Behaviour in which every completion call raises. -/
def behAllFail : ProviderBehavior where
  openaiResult := fun _ => .error { msg := "provider failure" }
  geminiResult := fun _ => .error { msg := "provider failure" }

/-- Behaviour in which OpenAI answers and Gemini raises. -/
def behOpenaiOk : ProviderBehavior where
  openaiResult := fun _ => .ok (some "respuesta")
  geminiResult := fun _ => .error { msg := "provider failure" }

/-- Behaviour in which both providers answer. -/
def behBothOk : ProviderBehavior where
  openaiResult := fun _ => .ok (some "respuesta openai")
  geminiResult := fun _ => .ok (some "respuesta gemini")

/-- A state in which only OpenAI is configured and passes its probe. -/
def stOnlyOpenai : ServiceState where
  preferredProvider := .openai
  openaiModel := "gpt-4-turbo-preview"
  geminiModel := "gemini-pro"
  openaiInit := true
  geminiInit := false
  openaiPingOk := true
  geminiPingOk := false

/-- A state in which no provider is configured. -/
def stBothDown : ServiceState where
  preferredProvider := .openai
  openaiModel := "gpt-4-turbo-preview"
  geminiModel := "gemini-pro"
  openaiInit := false
  geminiInit := false
  openaiPingOk := false
  geminiPingOk := false

/-- A state in which both providers are configured and pass their probes. -/
def stBothUp : ServiceState where
  preferredProvider := .openai
  openaiModel := "gpt-4-turbo-preview"
  geminiModel := "gemini-pro"
  openaiInit := true
  geminiInit := true
  openaiPingOk := true
  geminiPingOk := true

/-- Preferred provider Gemini, but only OpenAI is up. -/
def stPrefGeminiOpenaiUp : ServiceState where
  preferredProvider := .gemini
  openaiModel := "gpt-4-turbo-preview"
  geminiModel := "gemini-pro"
  openaiInit := true
  geminiInit := true
  openaiPingOk := true
  geminiPingOk := false

/-- JavaScript object-spread update: the result has all entries of `acc`
plus key `k` bound to `v`; when `k` was already present its position is
kept and its value replaced, otherwise the new entry goes last (JS objects
preserve first-insertion key order). -/
def objSet {α : Type} (acc : List (String × α)) (k : String) (v : α) :
    List (String × α) :=
  if acc.any (fun p => p.1 = k) then
    acc.map (fun p => if p.1 = k then (k, v) else p)
  else acc ++ [(k, v)]

/-- Whether key `k` is present in a JS-object association list. -/
def hasKey {α : Type} (l : List (String × α)) (k : String) : Bool :=
  l.any (fun p => p.1 = k)

/-- A JavaScript JSON value.  Numeric literals are kept as their lexeme:
no claim inspects a parsed number, so the float value is not interpreted. -/
inductive Json
  | null
  | bool (b : Bool)
  | num (lexeme : String)
  | str (s : String)
  | arr (elems : List Json)
  | obj (fields : List (String × Json))

/-- The whitespace characters JSON allows between tokens. -/
def isJsonWs (c : Char) : Bool :=
  c = ' ' || c = '\t' || c = '\n' || c = '\r'

/-- Drop leading JSON whitespace. -/
def skipWs : List Char → List Char
  | [] => []
  | c :: cs => if isJsonWs c then skipWs cs else c :: cs

/-- Value of one hexadecimal digit, if any. -/
def hexVal (c : Char) : Option Nat :=
  if c.isDigit then some (c.toNat - 48)
  else if 'a' ≤ c ∧ c ≤ 'f' then some (c.toNat - 87)
  else if 'A' ≤ c ∧ c ≤ 'F' then some (c.toNat - 55)
  else none

/-- Body of a JSON string literal, after the opening quote.  Handles the
JSON escapes; a raw control character is rejected.  (A `\u` escape is
mapped through `Char.ofNat`; surrogate pairing of two escapes is not
modelled — no property below depends on it.) -/
def parseStringBody : Nat → List Char → String → Option (String × List Char)
  | 0, _, _ => none
  | Nat.succ fuel, cs, acc =>
    match cs with
    | [] => none
    | '"' :: rest => some (acc, rest)
    | '\\' :: rest =>
      match rest with
      | [] => none
      | e :: rest2 =>
        if e = '"' then parseStringBody fuel rest2 (acc.push '"')
        else if e = '\\' then parseStringBody fuel rest2 (acc.push '\\')
        else if e = '/' then parseStringBody fuel rest2 (acc.push '/')
        else if e = 'b' then parseStringBody fuel rest2 (acc.push (Char.ofNat 8))
        else if e = 'f' then parseStringBody fuel rest2 (acc.push (Char.ofNat 12))
        else if e = 'n' then parseStringBody fuel rest2 (acc.push '\n')
        else if e = 'r' then parseStringBody fuel rest2 (acc.push '\r')
        else if e = 't' then parseStringBody fuel rest2 (acc.push '\t')
        else if e = 'u' then
          match rest2 with
          | h1 :: h2 :: h3 :: h4 :: rest3 =>
            match hexVal h1, hexVal h2, hexVal h3, hexVal h4 with
            | some a, some b, some c, some d =>
              parseStringBody fuel rest3
                (acc.push (Char.ofNat (((a * 16 + b) * 16 + c) * 16 + d)))
            | _, _, _, _ => none
          | _ => none
        else none
    | c :: rest =>
      if c.toNat < 32 then none else parseStringBody fuel rest (acc.push c)

/-- Longest digit prefix. -/
def takeDigits : List Char → List Char × List Char
  | [] => ([], [])
  | c :: cs =>
    if c.isDigit then
      let (ds, r) := takeDigits cs
      (c :: ds, r)
    else ([], c :: cs)

/-- Optional exponent part of a JSON number. -/
def parseExpPart (lex : String) (cs : List Char) : Option (String × List Char) :=
  match cs with
  | [] => some (lex, [])
  | c :: rest =>
    if c = 'e' || c = 'E' then
      let (sign, rest2) :=
        match rest with
        | '+' :: r => ("+", r)
        | '-' :: r => ("-", r)
        | _ => ("", rest)
      match takeDigits rest2 with
      | ([], _) => none
      | (ds, r) => some (lex ++ c.toString ++ sign ++ String.mk ds, r)
    else some (lex, c :: rest)

/-- Optional fraction part of a JSON number, then exponent. -/
def parseFracPart (lex : String) (cs : List Char) : Option (String × List Char) :=
  match cs with
  | '.' :: rest =>
    match takeDigits rest with
    | ([], _) => none
    | (ds, r) => parseExpPart (lex ++ "." ++ String.mk ds) r
  | _ => parseExpPart lex cs

/-- A JSON numeric literal (sign, integer part without leading zeros,
fraction, exponent); returns the lexeme. -/
def parseNumber (cs : List Char) : Option (String × List Char) :=
  let (neg, cs1) :=
    match cs with
    | '-' :: rest => ("-", rest)
    | _ => ("", cs)
  match cs1 with
  | [] => none
  | c :: rest =>
    if c = '0' then parseFracPart (neg ++ "0") rest
    else if c.isDigit then
      match takeDigits rest with
      | (ds, r) => parseFracPart (neg ++ c.toString ++ String.mk ds) r
    else none

/-- Match a fixed literal tail (for `null` / `true` / `false`). -/
def parseLit (lit : List Char) (cs : List Char) : Option (List Char) :=
  if cs.take lit.length = lit then some (cs.drop lit.length) else none

mutual

/-- One JSON value, fuel-indexed recursive descent. -/
def parseValue : Nat → List Char → Option (Json × List Char)
  | 0, _ => none
  | Nat.succ fuel, cs =>
    match skipWs cs with
    | [] => none
    | 'n' :: rest => (parseLit ['u', 'l', 'l'] rest).map (fun r => (Json.null, r))
    | 't' :: rest => (parseLit ['r', 'u', 'e'] rest).map (fun r => (Json.bool true, r))
    | 'f' :: rest => (parseLit ['a', 'l', 's', 'e'] rest).map (fun r => (Json.bool false, r))
    | '"' :: rest =>
      (parseStringBody (rest.length + 1) rest "").map (fun p => (Json.str p.1, p.2))
    | '[' :: rest =>
      (match skipWs rest with
       | ']' :: rest2 => some (Json.arr [], rest2)
       | _ => parseElems fuel rest [])
    | '\x7b' :: rest =>
      (match skipWs rest with
       | '\x7d' :: rest2 => some (Json.obj [], rest2)
       | _ => parseMembers fuel rest [])
    | c :: rest =>
      if c = '-' || c.isDigit then
        (parseNumber (c :: rest)).map (fun p => (Json.num p.1, p.2))
      else none

/-- Comma-separated array elements up to the closing bracket. -/
def parseElems : Nat → List Char → List Json → Option (Json × List Char)
  | 0, _, _ => none
  | Nat.succ fuel, cs, acc =>
    match parseValue fuel cs with
    | none => none
    | some (v, rest) =>
      match skipWs rest with
      | ',' :: rest2 => parseElems fuel rest2 (acc ++ [v])
      | ']' :: rest2 => some (Json.arr (acc ++ [v]), rest2)
      | _ => none

/-- Comma-separated object members up to the closing brace; a duplicate
key overwrites the earlier value in place, as `JSON.parse` does. -/
def parseMembers : Nat → List Char → List (String × Json) → Option (Json × List Char)
  | 0, _, _ => none
  | Nat.succ fuel, cs, acc =>
    match skipWs cs with
    | '"' :: rest =>
      (match parseStringBody (rest.length + 1) rest "" with
       | none => none
       | some (k, rest2) =>
         match skipWs rest2 with
         | ':' :: rest3 =>
           (match parseValue fuel rest3 with
            | none => none
            | some (v, rest4) =>
              match skipWs rest4 with
              | ',' :: rest5 => parseMembers fuel rest5 (objSet acc k v)
              | '\x7d' :: rest5 => some (Json.obj (objSet acc k v), rest5)
              | _ => none)
         | _ => none)
    | _ => none

end

/-- Model of the ECMAScript `JSON.parse` builtin used at
`llm.service.ts` lines 248 and 313: `none` is a thrown `SyntaxError`.
The fuel `2 * length + 2` over-approximates the recursion depth, since
every two nested parser calls consume at least one character. -/
def jsonParse (s : String) : Option Json :=
  match parseValue (2 * s.length + 2) s.data with
  | none => none
  | some (v, rest) => if skipWs rest = [] then some v else none

/-- Field access on a parsed JSON object. -/
def Json.getField (j : Json) (k : String) : Option Json :=
  match j with
  | .obj fs =>
    match fs.find? (fun p => p.1 = k) with
    | some p => some p.2
    | none => none
  | _ => none

/-- Is this JSON value a string? -/
def Json.isString : Json → Bool
  | .str _ => true
  | _ => false

/-- Is this JSON value a number? -/
def Json.isNumber : Json → Bool
  | .num _ => true
  | _ => false

/-- Is this JSON value an array of strings? -/
def isStringArray : Json → Bool
  | .arr xs => xs.all Json.isString
  | _ => false

/-- Does this JSON value match the `riskAssessment` field of the declared
`DocumentInsights` interface (lines 9-13): a level among low/medium/high,
a numeric score and a string-array factors field? -/
def isRiskAssessment (j : Json) : Bool :=
  (match j.getField "level" with
   | some (.str l) => l = "low" || l = "medium" || l = "high"
   | _ => false) &&
  (match j.getField "score" with
   | some v => v.isNumber
   | _ => false) &&
  (match j.getField "factors" with
   | some v => isStringArray v
   | _ => false)

/-- Does this JSON value match the declared `DocumentInsights` interface
(`llm.service.ts` lines 5-14)? -/
def isInsightShape (j : Json) : Bool :=
  (match j.getField "summary" with
   | some v => v.isString
   | _ => false) &&
  (match j.getField "keyFindings" with
   | some v => isStringArray v
   | _ => false) &&
  (match j.getField "recommendations" with
   | some v => isStringArray v
   | _ => false) &&
  (match j.getField "riskAssessment" with
   | some v => isRiskAssessment v
   | _ => false)

/-- The `riskAssessment` component of `DocumentInsights`. -/
structure RiskAssessment where
  level : String
  score : Nat
  factors : List String
deriving DecidableEq, Repr

/-- The declared `DocumentInsights` result shape. -/
structure DocumentInsights where
  summary : String
  keyFindings : List String
  recommendations : List String
  riskAssessment : RiskAssessment
deriving DecidableEq, Repr

/-- One row of the declared `riskMatrix` (legal/financial/operational). -/
structure RiskScores where
  legal : Nat
  financial : Nat
  operational : Nat
deriving DecidableEq, Repr

/-- The `recommendation` component of `ComparisonInsights`. -/
structure Recommendation where
  preferred : String
  reasoning : String
  improvements : List String
deriving DecidableEq, Repr

/-- The `comparison` component of `ComparisonInsights`; the maps are JS
objects, embedded as insertion-ordered association lists. -/
structure ComparisonTable where
  strengths : List (String × List String)
  weaknesses : List (String × List String)
deriving DecidableEq, Repr

/-- The declared `ComparisonInsights` result shape. -/
structure ComparisonInsights where
  summary : String
  comparison : ComparisonTable
  recommendation : Recommendation
  riskMatrix : List (String × RiskScores)
deriving DecidableEq, Repr

/-- An entry of the `analyses` array passed to
`generateComparisonInsights`.  The fallback branch reads only its
`documentName` property, which may be absent (`none`). -/
structure Analysis where
  documentName : Option String
deriving DecidableEq, Repr

/-- `a.documentName || 'Documento i+1'` for the document at index `i`. -/
def docLabel (i : Nat) (a : Analysis) : String :=
  jsOrString a.documentName ("Documento " ++ toString (i + 1))

/-- The `docNames` array of the comparison fallback (line 316). -/
def docNames (analyses : List Analysis) : List String :=
  analyses.enum.map (fun p => docLabel p.1 p.2)

/-- The deterministic fallback `DocumentInsights` built when `JSON.parse`
fails in `generateDocumentInsights` (lines 250-260). -/
def fallbackInsight (response : String) : DocumentInsights where
  summary := response
  keyFindings := ["Análisis completado - ver resumen para detalles"]
  recommendations := ["Revisar el análisis detallado proporcionado"]
  riskAssessment := { level := "medium", score := 5, factors := ["general"] }

/-- The deterministic fallback `ComparisonInsights` built when `JSON.parse`
fails in `generateComparisonInsights` (lines 315-332). -/
def fallbackComparison (response : String) (analyses : List Analysis) :
    ComparisonInsights :=
  let names := docNames analyses
  { summary := response
    comparison :=
      { strengths := names.foldl (fun acc name => objSet acc name ["Ver análisis detallado"]) []
        weaknesses := names.foldl (fun acc name => objSet acc name ["Ver análisis detallado"]) [] }
    recommendation :=
      { preferred := jsOrString names.head? "Primer documento"
        reasoning := "Basado en el análisis detallado proporcionado"
        improvements := ["Revisar la comparación detallada proporcionada"] }
    riskMatrix :=
      names.foldl (fun acc name => objSet acc name { legal := 5, financial := 5, operational := 5 }) [] }

/-- What `generateDocumentInsights` returns to its caller after the
dispatch: either the unvalidated `JSON.parse` value, or the typed
fallback object. -/
inductive InsightResult
  | parsed (j : Json)
  | fallback (d : DocumentInsights)

/-- What `generateComparisonInsights` returns to its caller after the
dispatch. -/
inductive ComparisonResult
  | parsed (j : Json)
  | fallback (c : ComparisonInsights)

/-- The insight parser: the `try JSON.parse / catch fallback` stage of
`generateDocumentInsights` (lines 247-261) applied to the dispatcher's
response string. -/
def parseInsight (response : String) : InsightResult :=
  match jsonParse response with
  | some j => .parsed j
  | none => .fallback (fallbackInsight response)

/-- The comparison parser: the `try JSON.parse / catch fallback` stage of
`generateComparisonInsights` (lines 312-333). -/
def parseComparison (response : String) (analyses : List Analysis) :
    ComparisonResult :=
  match jsonParse response with
  | some j => .parsed j
  | none => .fallback (fallbackComparison response analyses)

/-- Well-formedness, per the claim, of what the insight path returns: a
parsed value must match the declared interface; the fallback object is
well-typed by construction. -/
def insightWellFormed : InsightResult → Bool
  | .parsed j => isInsightShape j
  | .fallback _ => true

/-- Ambient process state a JavaScript expression could read at any point
(the wall clock via `Date.now()` / `new Date()`, and the random source).
It is threaded explicitly into the prompt builders so that their
independence from it — no hidden timestamps or randomness in the prompt
body — is a provable statement rather than an artifact of the embedding. -/
structure Ambient where
  now : Nat
  rand : Nat
deriving DecidableEq, Repr

/-- Models `new Date(t).toLocaleDateString()`: a process-constant pure
rendering of the input timestamp.  Its exact text is irrelevant to every
property proved below, which only use that it is a function of the
input timestamp. -/
def localeDateString (epochMs : Nat) : String :=
  toString epochMs

/-- JavaScript `s.substring(0, n)` (the code-unit/character distinction is
irrelevant to the properties proved). -/
def jsSubstring (s : String) (n : Nat) : String :=
  String.mk (s.data.take n)

/-- `context.workspace.country` as read by the chat prompt builder. -/
structure Country where
  name : Option String
deriving DecidableEq, Repr

/-- `context.workspace` as read by the chat prompt builder. -/
structure WorkspaceInfo where
  name : Option String
  country : Option Country
deriving DecidableEq, Repr

/-- A workspace document as read by the chat prompt builder
(`chatWithAgent`, lines 339-351). -/
structure Doc where
  name : String
  type : String
  description : Option String
  extractedText : Option String
  uploadedAt : Nat
deriving DecidableEq, Repr

/-- The `context` object `chatWithAgent` receives. -/
structure ChatContext where
  workspace : Option WorkspaceInfo
  analyses : Option (List Unit)
  documents : Option (List Doc)
deriving DecidableEq, Repr

/-- `xs?.length || 0`. -/
def jsLen {α : Type} (xs : Option (List α)) : Nat :=
  match xs with
  | none => 0
  | some l => l.length

/-- The lines `chatWithAgent` appends to the document context for one
document (lines 341-350): numbered header, description, an optional
preview of the first 2000 characters of extracted text (with an ellipsis
when truncated), and the upload date. -/
def docEntry (index : Nat) (doc : Doc) : String :=
  "\n" ++ toString (index + 1) ++ ". " ++ doc.name ++ " (" ++ doc.type ++ ")\n" ++
  "   Descripción: " ++ jsOrString doc.description "Sin descripción" ++ "\n" ++
  (match doc.extractedText with
   | some t =>
     if t.length > 0 then
       "   Vista Previa del Contenido: " ++ jsSubstring t 2000 ++
         (if t.length > 2000 then "..." else "") ++ "\n"
     else ""
   | none => "") ++
  "   Subido: " ++ localeDateString doc.uploadedAt ++ "\n"

/-- The `documentContext` block of `chatWithAgent` (lines 338-351): empty
unless the workspace has documents. -/
def documentContextOf (docs : Option (List Doc)) : String :=
  match docs with
  | some l =>
    if l.length > 0 then
      "\n\nDocumentos Disponibles en el Espacio de Trabajo:\n" ++
        String.join (l.enum.map (fun p => docEntry p.1 p.2))
    else ""
  | none => ""

/-- The system prompt `chatWithAgent` builds (lines 353-381). -/
def chatSystemPrompt (amb : Ambient) (ctx : ChatContext) : String :=
  "Eres un asistente de IA inteligente especializado en análisis de documentos legales para contratos gubernamentales, licitaciones y procesos de adquisiciones.\n\nTienes acceso al espacio de trabajo del usuario, análisis de documentos y documentos subidos. Usa este contexto para proporcionar insights informados y accionables.\n\nTus capacidades incluyen:\n1. Análisis e interpretación de documentos\n2. Evaluación de riesgos y verificación de cumplimiento\n3. Análisis comparativo entre documentos\n4. Orientación legal y regulatoria\n5. Recomendaciones estratégicas\n\nInformación de Contexto:\n- Espacio de trabajo: " ++
  jsOrString (ctx.workspace.bind (fun w => w.name)) "Desconocido" ++
  "\n- País: " ++
  jsOrString ((ctx.workspace.bind (fun w => w.country)).bind (fun c => c.name)) "No especificado" ++
  "\n- Análisis disponibles: " ++ toString (jsLen ctx.analyses) ++
  "\n- Documentos disponibles: " ++ toString (jsLen ctx.documents) ++
  documentContextOf ctx.documents ++
  "\n\nCuando analices documentos, puedes referenciar el contenido proporcionado arriba. Para análisis detallado, enfócate en:\n- Cumplimiento legal y riesgos\n- Términos financieros e implicaciones\n- Requisitos técnicos\n- Plazos y obligaciones\n- Recomendaciones para mejora\n\nProporciona respuestas útiles, precisas y accionables. Si necesitas información más específica, haz preguntas aclaratorias.\n\nSiempre mantén un tono profesional y enfócate en el valor práctico del negocio.\n\nIMPORTANTE: Todas tus respuestas deben estar completamente en español."

/-- The constant system prompt of `generateDocumentInsights`
(lines 212-235), including the requested JSON schema. -/
def insightSystemPrompt (amb : Ambient) : String :=
  "Eres un analista legal y empresarial experto especializado en revisión de documentos para contratos gubernamentales y licitaciones.\n\nTu tarea es analizar el análisis de documento proporcionado y generar insights accionables.\n\nEnfócate en:\n1. Cumplimiento legal y adherencia regulatoria\n2. Riesgos financieros y comerciales\n3. Requisitos técnicos y factibilidad\n4. Consideraciones operacionales\n5. Ventajas o desventajas competitivas\n\nProporciona tu respuesta en formato JSON con la siguiente estructura:\n\x7b\n  \"summary\": \"Resumen breve del análisis del documento\",\n  \"keyFindings\": [\"Hallazgo 1\", \"Hallazgo 2\", \"Hallazgo 3\"],\n  \"recommendations\": [\"Recomendación 1\", \"Recomendación 2\", \"Recomendación 3\"],\n  \"riskAssessment\": \x7b\n    \"level\": \"low|medium|high\",\n    \"score\": 1-10,\n    \"factors\": [\"factor1\", \"factor2\"]\n  \x7d\n\x7d\n\nIMPORTANTE: Toda tu respuesta debe estar completamente en español."

/-- The user message of `generateDocumentInsights` (lines 237-239);
`analysisJson` stands for `JSON.stringify(analysis, null, 2)`, the pure
rendering of the analysis object.  An absent or empty `question` (JS
falsy) selects the generic wording. -/
def insightUserMessage (amb : Ambient) (question : Option String)
    (analysisJson : String) : String :=
  match question with
  | some q =>
    if q = "" then
      "Por favor proporciona insights exhaustivos para este análisis de documento:\n\nAnálisis del Documento: " ++ analysisJson
    else
      "Por favor analiza este documento con enfoque en: " ++ q ++
        "\n\nAnálisis del Documento: " ++ analysisJson
  | none =>
    "Por favor proporciona insights exhaustivos para este análisis de documento:\n\nAnálisis del Documento: " ++ analysisJson

/-- `generateDocumentInsights` (lines 211-262): build the prompts, dispatch,
then parse-or-fallback.  An error is a dispatch error that escaped. -/
def generateDocumentInsights (st : ServiceState) (beh : ProviderBehavior)
    (question : Option String) (analysisJson : String) (amb : Ambient) :
    Except DispatchError InsightResult :=
  match (callLLM st beh [{ role := "user", content := insightUserMessage amb question analysisJson }]
      (insightSystemPrompt amb) amb.now).1 with
  | .error e => .error e
  | .ok response => .ok (parseInsight response)

/-- `chatWithAgent` (lines 336-384): build the system prompt from the
workspace context and dispatch the conversation. -/
def chatWithAgent (st : ServiceState) (beh : ProviderBehavior)
    (messages : List ChatMessage) (ctx : ChatContext) (amb : Ambient) :
    Except DispatchError String :=
  (callLLM st beh messages (chatSystemPrompt amb ctx) amb.now).1

/-- The methods of `class LLMService` in `src/services/llm.service.ts`
(lines 52-387), the revision that `agent.controller.ts` and
`auth.middleware.ts` import. -/
def llmServiceMethods : List String :=
  ["healthCheck", "callOpenAI", "callGemini", "callLLM",
   "generateDocumentInsights", "generateComparisonInsights", "chatWithAgent"]

/-- The methods of the near-duplicate `class LLMService` revision embedded
in `src/services/resend.service.ts` (lines 297-734), which is not the
revision the controllers import. -/
def resendLlmServiceMethods : List String :=
  ["healthCheck", "callOpenAI", "callGemini", "callLLM",
   "generateDocumentInsights", "getLegalContext", "generateComparisonInsights",
   "chatWithAgent", "chatWithDocument"]

/-- The method name `chatWithDocumentController` invokes on its imported
`LLMService` instance (`agent.controller.ts` line 249). -/
def documentChatInvokedMethod : String := "chatWithDocument"

theorem healthCheck_openai_available (st : ServiceState) (now : Nat) :
    (healthCheck st now).openai.available = availableIn st .openai := by
  cases ho : st.openaiInit <;> cases hp : st.openaiPingOk <;>
    cases hg : st.geminiInit <;> cases hgp : st.geminiPingOk <;>
      simp [healthCheck, availableIn, ho, hp, hg, hgp]

theorem healthCheck_gemini_available (st : ServiceState) (now : Nat) :
    (healthCheck st now).gemini.available = availableIn st .gemini := by
  cases ho : st.openaiInit <;> cases hp : st.openaiPingOk <;>
    cases hg : st.geminiInit <;> cases hgp : st.geminiPingOk <;>
      simp [healthCheck, availableIn, ho, hp, hg, hgp]

theorem healthCheck_status (st : ServiceState) (now : Nat) :
    (healthCheck st now).status =
      (if availableIn st .openai || availableIn st .gemini then HStatus.healthy
       else HStatus.unhealthy) := by
  cases ho : st.openaiInit <;> cases hp : st.openaiPingOk <;>
    cases hg : st.geminiInit <;> cases hgp : st.geminiPingOk <;>
      simp [healthCheck, availableIn, ho, hp, hg, hgp]

end LLM

/-- C5: the overall status of a health-check result is `healthy` exactly
when at least one of the two per-provider entries reports `available =
true`; in particular availability of either provider forces `healthy`. -/
theorem healthCheck_overall_iff_some_available
    (st : LLM.ServiceState) (now : Nat) :
    (LLM.healthCheck st now).status = LLM.HStatus.healthy ↔
      ((LLM.healthCheck st now).openai.available = true ∨
       (LLM.healthCheck st now).gemini.available = true) := by
  rw [LLM.healthCheck_status, LLM.healthCheck_openai_available,
    LLM.healthCheck_gemini_available]
  cases ho : LLM.availableIn st .openai <;>
    cases hg : LLM.availableIn st .gemini <;> simp

namespace LLM

theorem availableIn_openai_init {st : ServiceState}
    (h : availableIn st .openai = true) : st.openaiInit = true := by
  simp [availableIn, Bool.and_eq_true] at h
  exact h.1

theorem availableIn_gemini_init {st : ServiceState}
    (h : availableIn st .gemini = true) : st.geminiInit = true := by
  simp [availableIn, Bool.and_eq_true] at h
  exact h.1

theorem callOpenAI_err {st : ServiceState} {beh : ProviderBehavior}
    {messages : List ChatMessage} {systemPrompt : String} {eo : ProviderError}
    (hinit : st.openaiInit = true)
    (hoe : beh.openaiResult (openaiRequestMessages systemPrompt messages) = .error eo) :
    callOpenAI st beh messages systemPrompt = .error (.provider .openai eo) := by
  simp [callOpenAI, hinit, hoe]

theorem callGemini_err {st : ServiceState} {beh : ProviderBehavior}
    {messages : List ChatMessage} {systemPrompt : String} {eg : ProviderError}
    (hinit : st.geminiInit = true)
    (hge : beh.geminiResult (geminiFullPrompt systemPrompt messages) = .error eg) :
    callGemini st beh messages systemPrompt = .error (.provider .gemini eg) := by
  simp [callGemini, hinit, hge]

theorem callLLM_none_available (st : ServiceState) (beh : ProviderBehavior)
    (messages : List ChatMessage) (systemPrompt : String) (now : Nat)
    (ho : availableIn st .openai = false) (hg : availableIn st .gemini = false) :
    callLLM st beh messages systemPrompt now = (.error .unavailable, []) := by
  simp [callLLM, healthCheck_status, healthCheck_openai_available,
    healthCheck_gemini_available, ho, hg]

theorem callLLM_pref_openai_ok {st : ServiceState} {beh : ProviderBehavior}
    {messages : List ChatMessage} {systemPrompt : String} {now : Nat} {r : String}
    (hpref : st.preferredProvider = .openai)
    (ha : availableIn st .openai = true)
    (hok : callOpenAI st beh messages systemPrompt = .ok r) :
    callLLM st beh messages systemPrompt now = (.ok r, [.openai]) := by
  simp [callLLM, healthCheck_status, healthCheck_openai_available,
    healthCheck_gemini_available, hpref, ha, hok]

theorem callLLM_pref_openai_err_fb {st : ServiceState} {beh : ProviderBehavior}
    {messages : List ChatMessage} {systemPrompt : String} {now : Nat} {e : DispatchError}
    (hpref : st.preferredProvider = .openai)
    (ha : availableIn st .openai = true)
    (he : callOpenAI st beh messages systemPrompt = .error e)
    (hb : availableIn st .gemini = true) :
    callLLM st beh messages systemPrompt now =
      (callGemini st beh messages systemPrompt, [.openai, .gemini]) := by
  simp [callLLM, healthCheck_status, healthCheck_openai_available,
    healthCheck_gemini_available, hpref, ha, he, hb]

theorem callLLM_pref_openai_err_noalt {st : ServiceState} {beh : ProviderBehavior}
    {messages : List ChatMessage} {systemPrompt : String} {now : Nat} {e : DispatchError}
    (hpref : st.preferredProvider = .openai)
    (ha : availableIn st .openai = true)
    (he : callOpenAI st beh messages systemPrompt = .error e)
    (hb : availableIn st .gemini = false) :
    callLLM st beh messages systemPrompt now = (.error e, [.openai]) := by
  simp [callLLM, healthCheck_status, healthCheck_openai_available,
    healthCheck_gemini_available, hpref, ha, he, hb]

theorem callLLM_pref_gemini_ok {st : ServiceState} {beh : ProviderBehavior}
    {messages : List ChatMessage} {systemPrompt : String} {now : Nat} {r : String}
    (hpref : st.preferredProvider = .gemini)
    (ha : availableIn st .gemini = true)
    (hok : callGemini st beh messages systemPrompt = .ok r) :
    callLLM st beh messages systemPrompt now = (.ok r, [.gemini]) := by
  simp [callLLM, healthCheck_status, healthCheck_openai_available,
    healthCheck_gemini_available, hpref, ha, hok]

theorem callLLM_pref_gemini_err_fb {st : ServiceState} {beh : ProviderBehavior}
    {messages : List ChatMessage} {systemPrompt : String} {now : Nat} {e : DispatchError}
    (hpref : st.preferredProvider = .gemini)
    (ha : availableIn st .gemini = true)
    (he : callGemini st beh messages systemPrompt = .error e)
    (hb : availableIn st .openai = true) :
    callLLM st beh messages systemPrompt now =
      (callOpenAI st beh messages systemPrompt, [.gemini, .openai]) := by
  simp [callLLM, healthCheck_status, healthCheck_openai_available,
    healthCheck_gemini_available, hpref, ha, he, hb]

theorem callLLM_pref_gemini_err_noalt {st : ServiceState} {beh : ProviderBehavior}
    {messages : List ChatMessage} {systemPrompt : String} {now : Nat} {e : DispatchError}
    (hpref : st.preferredProvider = .gemini)
    (ha : availableIn st .gemini = true)
    (he : callGemini st beh messages systemPrompt = .error e)
    (hb : availableIn st .openai = false) :
    callLLM st beh messages systemPrompt now = (.error e, [.gemini]) := by
  simp [callLLM, healthCheck_status, healthCheck_openai_available,
    healthCheck_gemini_available, hpref, ha, he, hb]

theorem callLLM_fallback_openai {st : ServiceState} {beh : ProviderBehavior}
    {messages : List ChatMessage} {systemPrompt : String} {now : Nat}
    (hp : availableIn st st.preferredProvider = false)
    (ho : availableIn st .openai = true) :
    callLLM st beh messages systemPrompt now =
      (callOpenAI st beh messages systemPrompt, [.openai]) := by
  cases hpref : st.preferredProvider with
  | openai => rw [hpref] at hp; rw [hp] at ho; exact absurd ho (by simp)
  | gemini =>
    rw [hpref] at hp
    simp [callLLM, healthCheck_status, healthCheck_openai_available,
      healthCheck_gemini_available, hpref, hp, ho]

theorem callLLM_fallback_gemini {st : ServiceState} {beh : ProviderBehavior}
    {messages : List ChatMessage} {systemPrompt : String} {now : Nat}
    (hp : availableIn st st.preferredProvider = false)
    (ho : availableIn st .openai = false)
    (hg : availableIn st .gemini = true) :
    callLLM st beh messages systemPrompt now =
      (callGemini st beh messages systemPrompt, [.gemini]) := by
  cases hpref : st.preferredProvider with
  | gemini => rw [hpref] at hp; rw [hp] at hg; exact absurd hg (by simp)
  | openai =>
    rw [hpref] at hp
    simp [callLLM, healthCheck_status, healthCheck_openai_available,
      healthCheck_gemini_available, hpref, hp, ho, hg]

end LLM

/-- C3: when the health check reports zero providers available, the
dispatcher fails with the all-providers-unavailable error and the
invocation trace is empty — neither `callOpenAI` nor `callGemini` runs. -/
theorem dispatch_unavailable_no_invocation
    (st : LLM.ServiceState) (beh : LLM.ProviderBehavior)
    (messages : List LLM.ChatMessage) (systemPrompt : String) (now : Nat)
    (ho : LLM.availableIn st .openai = false)
    (hg : LLM.availableIn st .gemini = false) :
    LLM.callLLM st beh messages systemPrompt now =
      (.error .unavailable, []) :=
  LLM.callLLM_none_available st beh messages systemPrompt now ho hg

/-- Witness for C3 at a concrete no-provider configuration. -/
theorem dispatch_unavailable_no_invocation_witness :
    LLM.callLLM LLM.stBothDown LLM.behBothOk [] "prompt" 0 =
      (.error .unavailable, []) :=
  dispatch_unavailable_no_invocation LLM.stBothDown LLM.behBothOk [] "prompt" 0 rfl rfl

/-- C4: with both providers available, if invoking the preferred provider
succeeds the other provider's invoker never runs, and if it raises, the
other provider is invoked next (the dispatch result is then the other
invoker's outcome, and the trace shows the preferred provider first). -/
theorem dispatch_fallback_order
    (st : LLM.ServiceState) (beh : LLM.ProviderBehavior)
    (messages : List LLM.ChatMessage) (systemPrompt : String) (now : Nat)
    (ha : LLM.availableIn st st.preferredProvider = true)
    (hb : LLM.availableIn st st.preferredProvider.other = true) :
    (∀ r, LLM.invokeProvider st.preferredProvider st beh messages systemPrompt = .ok r →
       LLM.callLLM st beh messages systemPrompt now = (.ok r, [st.preferredProvider])) ∧
    (∀ e, LLM.invokeProvider st.preferredProvider st beh messages systemPrompt = .error e →
       LLM.callLLM st beh messages systemPrompt now =
         (LLM.invokeProvider st.preferredProvider.other st beh messages systemPrompt,
          [st.preferredProvider, st.preferredProvider.other])) := by
  cases hpref : st.preferredProvider with
  | openai =>
    rw [hpref] at ha hb
    simp [LLM.Provider.other] at hb ⊢
    constructor
    · intro r hok
      simp [LLM.invokeProvider] at hok
      exact LLM.callLLM_pref_openai_ok hpref ha hok
    · intro e he
      simp [LLM.invokeProvider] at he
      exact LLM.callLLM_pref_openai_err_fb hpref ha he hb
  | gemini =>
    rw [hpref] at ha hb
    simp [LLM.Provider.other] at hb ⊢
    constructor
    · intro r hok
      simp [LLM.invokeProvider] at hok
      exact LLM.callLLM_pref_gemini_ok hpref ha hok
    · intro e he
      simp [LLM.invokeProvider] at he
      exact LLM.callLLM_pref_gemini_err_fb hpref ha he hb

/-- Witness for C4 at a concrete both-available configuration where the
preferred provider (OpenAI) answers: Gemini is never invoked. -/
theorem dispatch_fallback_order_witness :
    LLM.callLLM LLM.stBothUp LLM.behBothOk [] "prompt" 0 =
      (.ok "respuesta openai", [.openai]) :=
  (dispatch_fallback_order LLM.stBothUp LLM.behBothOk [] "prompt" 0 rfl rfl).1
    "respuesta openai" rfl

/-- C6: when the preferred provider is reported unavailable but the other
provider is available and its invocation succeeds, the dispatcher returns
the other provider's output (trace: only the other provider runs). -/
theorem dispatch_selects_available
    (st : LLM.ServiceState) (beh : LLM.ProviderBehavior)
    (messages : List LLM.ChatMessage) (systemPrompt : String) (now : Nat) (r : String)
    (ha : LLM.availableIn st st.preferredProvider = false)
    (hb : LLM.availableIn st st.preferredProvider.other = true)
    (hok : LLM.invokeProvider st.preferredProvider.other st beh messages systemPrompt = .ok r) :
    LLM.callLLM st beh messages systemPrompt now = (.ok r, [st.preferredProvider.other]) := by
  cases hpref : st.preferredProvider with
  | openai =>
    rw [hpref] at ha hb hok
    simp [LLM.Provider.other] at hb hok ⊢
    simp [LLM.invokeProvider] at hok
    rw [LLM.callLLM_fallback_gemini (by rw [hpref]; exact ha) ha hb, hok]
  | gemini =>
    rw [hpref] at ha hb hok
    simp [LLM.Provider.other] at hb hok ⊢
    simp [LLM.invokeProvider] at hok
    rw [LLM.callLLM_fallback_openai (by rw [hpref]; exact ha) hb, hok]

/-- Witness for C6: preferred provider Gemini is down, OpenAI is up and
answers, and the dispatcher returns OpenAI's answer. -/
theorem dispatch_selects_available_witness :
    LLM.callLLM LLM.stPrefGeminiOpenaiUp LLM.behOpenaiOk [] "prompt" 0 =
      (.ok "respuesta", [.openai]) :=
  dispatch_selects_available LLM.stPrefGeminiOpenaiUp LLM.behOpenaiOk [] "prompt" 0
    "respuesta" rfl rfl rfl

/-- C2 counterexample: preferred provider OpenAI is the only available
provider and its invocation raises a `ProviderError`; the dispatcher
rethrows that `ProviderError` (it escapes to the caller) instead of
failing with the all-providers-unavailable error, contradicting the claim
as stated. -/
theorem dispatch_provider_error_escapes_cex :
    (LLM.callLLM LLM.stOnlyOpenai LLM.behAllFail [] "prompt" 0).1 =
      Except.error (LLM.DispatchError.provider .openai { msg := "provider failure" }) ∧
    LLM.DispatchError.provider LLM.Provider.openai { msg := "provider failure" } ≠
      LLM.DispatchError.unavailable :=
  ⟨rfl, by decide⟩

/-- C2 amended: the all-providers-unavailable error is raised exactly when
the health check reports zero available providers; when at least one
provider is available and every available provider's invocation raises a
`ProviderError`, the dispatcher fails with the `ProviderError` of the last
provider it invoked — that error escapes to the caller rather than being
replaced by `AllProvidersUnavailableError`. -/
theorem dispatch_all_fail_error_policy
    (st : LLM.ServiceState) (beh : LLM.ProviderBehavior)
    (messages : List LLM.ChatMessage) (systemPrompt : String) (now : Nat)
    (eo eg : LLM.ProviderError)
    (hoe : beh.openaiResult (LLM.openaiRequestMessages systemPrompt messages) = .error eo)
    (hge : beh.geminiResult (LLM.geminiFullPrompt systemPrompt messages) = .error eg) :
    (LLM.availableIn st .openai = false ∧ LLM.availableIn st .gemini = false →
       LLM.callLLM st beh messages systemPrompt now = (.error .unavailable, [])) ∧
    (LLM.availableIn st .openai = true ∨ LLM.availableIn st .gemini = true →
       ∃ p e, (LLM.callLLM st beh messages systemPrompt now).1 =
           Except.error (LLM.DispatchError.provider p e) ∧
         ((LLM.callLLM st beh messages systemPrompt now).2).getLast? = some p) := by
  constructor
  · intro h
    exact LLM.callLLM_none_available st beh messages systemPrompt now h.1 h.2
  · intro hav
    cases ho : LLM.availableIn st .openai with
    | true =>
      have hoi := LLM.availableIn_openai_init ho
      have hoerr := LLM.callOpenAI_err hoi hoe
      cases hg : LLM.availableIn st .gemini with
      | true =>
        have hgi := LLM.availableIn_gemini_init hg
        have hgerr := LLM.callGemini_err hgi hge
        cases hpref : st.preferredProvider with
        | openai =>
          rw [LLM.callLLM_pref_openai_err_fb hpref ho hoerr hg]
          exact ⟨.gemini, eg, by rw [hgerr], rfl⟩
        | gemini =>
          rw [LLM.callLLM_pref_gemini_err_fb hpref hg hgerr ho]
          exact ⟨.openai, eo, by rw [hoerr], rfl⟩
      | false =>
        cases hpref : st.preferredProvider with
        | openai =>
          rw [LLM.callLLM_pref_openai_err_noalt hpref ho hoerr hg]
          exact ⟨.openai, eo, rfl, rfl⟩
        | gemini =>
          rw [LLM.callLLM_fallback_openai (by rw [hpref]; exact hg) ho]
          exact ⟨.openai, eo, by rw [hoerr], rfl⟩
    | false =>
      cases hg : LLM.availableIn st .gemini with
      | true =>
        have hgi := LLM.availableIn_gemini_init hg
        have hgerr := LLM.callGemini_err hgi hge
        cases hpref : st.preferredProvider with
        | gemini =>
          rw [LLM.callLLM_pref_gemini_err_noalt hpref hg hgerr ho]
          exact ⟨.gemini, eg, rfl, rfl⟩
        | openai =>
          rw [LLM.callLLM_fallback_gemini (by rw [hpref]; exact ho) ho hg]
          exact ⟨.gemini, eg, by rw [hgerr], rfl⟩
      | false =>
        rw [ho] at hav
        rw [hg] at hav
        rcases hav with h | h <;> exact absurd h (by simp)

/-- Witness for C2's amended theorem at a concrete configuration. -/
theorem dispatch_all_fail_error_policy_witness :
    ∃ p e, (LLM.callLLM LLM.stOnlyOpenai LLM.behAllFail [] "prompt" 0).1 =
        Except.error (LLM.DispatchError.provider p e) ∧
      ((LLM.callLLM LLM.stOnlyOpenai LLM.behAllFail [] "prompt" 0).2).getLast? = some p :=
  (dispatch_all_fail_error_policy LLM.stOnlyOpenai LLM.behAllFail [] "prompt" 0
    { msg := "provider failure" } { msg := "provider failure" } rfl rfl).2 (Or.inl rfl)

namespace LLM

theorem objSet_values {α : Type} (v : α) (acc : List (String × α)) (k : String)
    (h : ∀ p ∈ acc, p.2 = v) : ∀ p ∈ objSet acc k v, p.2 = v := by
  intro p hp
  unfold objSet at hp
  split at hp
  · rcases List.mem_map.mp hp with ⟨q, hq, hpq⟩
    by_cases hk : q.1 = k
    · rw [if_pos hk] at hpq
      rw [← hpq]
    · rw [if_neg hk] at hpq
      rw [← hpq]
      exact h q hq
  · rcases List.mem_append.mp hp with h1 | h2
    · exact h p h1
    · simp at h2
      rw [h2]

theorem objSet_hasKey_self {α : Type} (acc : List (String × α)) (k : String) (v : α) :
    hasKey (objSet acc k v) k = true := by
  unfold objSet hasKey
  split
  · next hcond =>
    rw [List.any_eq_true] at hcond ⊢
    rcases hcond with ⟨q, hq, hqk⟩
    refine ⟨(k, v), List.mem_map.mpr ⟨q, hq, ?_⟩, by simp⟩
    rw [if_pos (by simpa using hqk)]
  · simp

theorem objSet_hasKey_mono {α : Type} (acc : List (String × α)) (k k' : String) (v : α)
    (h : hasKey acc k' = true) : hasKey (objSet acc k v) k' = true := by
  unfold objSet hasKey at *
  split
  · rw [List.any_eq_true] at h ⊢
    rcases h with ⟨q, hq, hqk⟩
    by_cases hk : q.1 = k
    · refine ⟨(k, v), List.mem_map.mpr ⟨q, hq, by rw [if_pos hk]⟩, ?_⟩
      simp only [decide_eq_true_eq] at hqk ⊢
      rw [← hk, hqk]
    · exact ⟨q, List.mem_map.mpr ⟨q, hq, by rw [if_neg hk]⟩, hqk⟩
  · rw [List.any_append]
    rw [h]
    simp

theorem foldl_objSet_values {α : Type} (v : α) (names : List String)
    (acc : List (String × α)) (h : ∀ p ∈ acc, p.2 = v) :
    ∀ p ∈ names.foldl (fun acc name => objSet acc name v) acc, p.2 = v := by
  induction names generalizing acc with
  | nil => exact h
  | cons n ns ih =>
    intro p hp
    exact ih (objSet acc n v) (objSet_values v acc n h) p hp

theorem foldl_objSet_hasKey {α : Type} (v : α) (names : List String)
    (acc : List (String × α)) (k : String)
    (hk : k ∈ names ∨ hasKey acc k = true) :
    hasKey (names.foldl (fun acc name => objSet acc name v) acc) k = true := by
  induction names generalizing acc with
  | nil =>
    rcases hk with h | h
    · simp at h
    · exact h
  | cons n ns ih =>
    rcases hk with hmem | hacc
    · rcases List.mem_cons.mp hmem with rfl | h2
      · exact ih (objSet acc k v) (Or.inr (objSet_hasKey_self acc k v))
      · exact ih (objSet acc n v) (Or.inl h2)
    · exact ih (objSet acc n v) (Or.inr (objSet_hasKey_mono acc n k v hacc))

theorem lookup_of_hasKey_all {α : Type} (v : α) (l : List (String × α)) (k : String)
    (hk : hasKey l k = true) (hall : ∀ p ∈ l, p.2 = v) :
    List.lookup k l = some v := by
  induction l with
  | nil => simp [hasKey] at hk
  | cons p rest ih =>
    obtain ⟨k1, v1⟩ := p
    by_cases h : k = k1
    · subst h
      have hv : v1 = v := hall (k, v1) (by simp)
      simp [List.lookup, hv]
    · have hbeq : (k == k1) = false := beq_eq_false_iff_ne.mpr h
      rw [List.lookup, hbeq]
      apply ih
      · unfold hasKey at hk ⊢
        simp only [List.any_cons] at hk
        rcases Bool.or_eq_true_iff.mp hk with h1 | h2
        · have hk1 : k1 = k := by simpa using h1
          exact absurd hk1.symm h
        · exact h2
      · intro q hq
        exact hall q (List.mem_cons_of_mem _ hq)

theorem docLabel_ne_empty (i : Nat) (a : Analysis) : ¬ docLabel i a = "" := by
  unfold docLabel jsOrString
  have hbase : ¬ ("Documento " ++ toString (i + 1) = "") := by
    intro hc
    have h2 := congrArg String.length hc
    rw [String.length_append] at h2
    have h3 : "Documento ".length = 10 := rfl
    rw [h3] at h2
    simp at h2
  cases a.documentName with
  | none => exact hbase
  | some s =>
    show ¬ (if s = "" then "Documento " ++ toString (i + 1) else s) = ""
    by_cases hs : s = ""
    · rw [if_pos hs]
      exact hbase
    · rw [if_neg hs]
      exact hs

theorem docNames_cons_head (a : Analysis) (rest : List Analysis) :
    (docNames (a :: rest)).head? = some (docLabel 0 a) := by
  simp [docNames, List.enum_cons]

end LLM

/-- C7: when the model output fails to parse, the comparison fallback for
a non-empty analysis list prefers the first document's label, and its risk
matrix binds every document label to the identical neutral scores
(legal, financial, operational all 5). -/
theorem comparison_fallback_defaults (response : String) (a : LLM.Analysis)
    (rest : List LLM.Analysis) (hp : LLM.jsonParse response = none) :
    LLM.parseComparison response (a :: rest) =
      .fallback (LLM.fallbackComparison response (a :: rest)) ∧
    (LLM.fallbackComparison response (a :: rest)).recommendation.preferred =
      LLM.docLabel 0 a ∧
    ∀ name ∈ LLM.docNames (a :: rest),
      List.lookup name (LLM.fallbackComparison response (a :: rest)).riskMatrix =
        some { legal := 5, financial := 5, operational := 5 } := by
  refine ⟨by simp [LLM.parseComparison, hp], ?_, ?_⟩
  · show LLM.jsOrString (LLM.docNames (a :: rest)).head? "Primer documento" =
      LLM.docLabel 0 a
    rw [LLM.docNames_cons_head]
    show (if LLM.docLabel 0 a = "" then "Primer documento" else LLM.docLabel 0 a) =
      LLM.docLabel 0 a
    rw [if_neg (LLM.docLabel_ne_empty 0 a)]
  · intro name hmem
    apply LLM.lookup_of_hasKey_all
    · exact LLM.foldl_objSet_hasKey _ _ _ _ (Or.inl hmem)
    · apply LLM.foldl_objSet_values
      intro p hp2
      simp at hp2

/-- Witness for C7 at the spec's scenario: two documents named
Contract A and Contract B with unparseable model output. -/
theorem comparison_fallback_defaults_witness :
    (LLM.fallbackComparison "sin json"
        [{ documentName := some "Contract A" }, { documentName := some "Contract B" }]
      ).recommendation.preferred = "Contract A" := by
  have h := comparison_fallback_defaults "sin json" { documentName := some "Contract A" }
    [{ documentName := some "Contract B" }] (by rfl)
  exact h.2.1.trans (by rfl)

/-- C1 counterexample: the string "null" parses as JSON, so the insight
path returns the unvalidated value `null`, which is not a well-formed
`DocumentInsights` object — refuting the claim that every dispatcher
output yields a result of the declared shape. -/
theorem synthesizer_wellformed_cex :
    LLM.parseInsight "null" = .parsed LLM.Json.null ∧
    LLM.insightWellFormed (LLM.parseInsight "null") = false :=
  ⟨rfl, rfl⟩

/-- C1 amended: the two parsers never throw; whenever `JSON.parse` fails
they return the deterministic well-typed fallback whose summary is the raw
dispatcher output verbatim; when `JSON.parse` succeeds the parsed value is
returned without shape validation (see the counterexample), so only the
failure path guarantees the declared shape. -/
theorem synthesizer_parse_failure_fallback (response : String)
    (analyses : List LLM.Analysis) (hp : LLM.jsonParse response = none) :
    LLM.parseInsight response = .fallback (LLM.fallbackInsight response) ∧
    LLM.parseComparison response analyses =
      .fallback (LLM.fallbackComparison response analyses) ∧
    LLM.insightWellFormed (LLM.parseInsight response) = true ∧
    (LLM.fallbackInsight response).summary = response ∧
    (LLM.fallbackComparison response analyses).summary = response := by
  refine ⟨by simp [LLM.parseInsight, hp], by simp [LLM.parseComparison, hp],
    by simp [LLM.parseInsight, hp, LLM.insightWellFormed], rfl, rfl⟩

/-- Witness for C1's amended theorem on a non-JSON dispatcher output. -/
theorem synthesizer_parse_failure_fallback_witness :
    LLM.parseInsight "respuesta de texto" =
      .fallback (LLM.fallbackInsight "respuesta de texto") :=
  (synthesizer_parse_failure_fallback "respuesta de texto"
    [{ documentName := none }] (by rfl)).1

/-- C8: the prompt builders of `chatWithAgent` and
`generateDocumentInsights` do not read the ambient clock or random source:
their output is a pure function of the explicit context, so two calls with
identical inputs produce byte-identical prompt strings regardless of when
they run. -/
theorem prompt_builders_ambient_free (amb1 amb2 : LLM.Ambient)
    (ctx : LLM.ChatContext) (question : Option String) (analysisJson : String) :
    LLM.chatSystemPrompt amb1 ctx = LLM.chatSystemPrompt amb2 ctx ∧
    LLM.insightSystemPrompt amb1 = LLM.insightSystemPrompt amb2 ∧
    LLM.insightUserMessage amb1 question analysisJson =
      LLM.insightUserMessage amb2 question analysisJson :=
  ⟨rfl, rfl, rfl⟩

/-- C10: the prompt `callGemini` sends is the system prompt plus the
content of the last conversation turn alone — for any list of earlier
turns the result is the same, and with no turns the user portion is
empty. -/
theorem gemini_prompt_last_turn_only (systemPrompt : String)
    (earlier : List LLM.ChatMessage) (m : LLM.ChatMessage) :
    LLM.geminiFullPrompt systemPrompt (earlier ++ [m]) =
      systemPrompt ++ "\n\nUser: " ++ m.content ∧
    LLM.geminiFullPrompt systemPrompt [] = systemPrompt ++ "\n\nUser: " := by
  constructor
  · simp [LLM.geminiFullPrompt]
  · simp [LLM.geminiFullPrompt]

/-- C9: the `LLMService` revision the controllers import
(`llm.service.ts`) does not define the single-document chat method that
`chatWithDocumentController` invokes on it; only the stale duplicate
revision inside `resend.service.ts` defines it. -/
theorem document_chat_method_missing :
    LLM.llmServiceMethods.contains LLM.documentChatInvokedMethod = false ∧
    LLM.resendLlmServiceMethods.contains LLM.documentChatInvokedMethod = true := by
  constructor
  · decide
  · decide
